import Mathlib

/-!
Shallow embedding of the greenlight-final anime catalog service:
the versioned record store (`internal/data/movies.go`), the shared data-layer
errors (`internal/data`), and the HTTP handlers (`cmd/api/animes.go`).

The database table `animes` is modelled as a `List Anime`; SQL statements are
translated clause by clause into Lean functions over that list.  The PostgreSQL
full-text predicate `to_tsvector('simple', title) @@ plainto_tsquery('simple', q)`
is kept abstract as a Boolean parameter `ft : String → String → Bool`.
-/

/-- Errors of the data layer.  `recordNotFound` and `editConflict` are the two
sentinel errors declared in `internal/data`; `bindMismatch`, `scanMismatch` and
`backend` stand for the generic pgx/PostgreSQL errors that reach the
`default:` branches of the Go switch statements. -/
inductive DataErr where
  | recordNotFound
  | editConflict
  | bindMismatch
  | scanMismatch
  | backend
deriving DecidableEq, Repr

/-- The catalog record (struct `Anime` in `internal/data/movies.go`).
Go integer fields (`int64`, `int32`, `Runtime`) are modelled as `Int`;
`CreatedAt time.Time` is modelled as an opaque `Int` timestamp; the Go slice
`Genres []string`, which distinguishes `nil` from an empty slice, is modelled
as `Option (List String)` with `none` standing for the nil slice. -/
structure Anime where
  ID : Int
  CreatedAt : Int
  Title : String
  Year : Int
  RuntimeMin : Int
  Genres : Option (List String)
  Version : Int
deriving DecidableEq, Repr

/-- Go `len` of a possibly-nil slice: `len(nil) = 0`. -/
def goLen (g : Option (List String)) : Nat := (g.getD []).length

/-- Modelled from the spec: `validator.Unique` (the `internal/validator`
package is not among the shown sources).  The spec's constraint "genre
uniqueness / must not contain duplicate values" is a no-duplicates check. -/
def uniqueStrings (l : List String) : Bool := l.dedup.length == l.length

/-- Modelled from the spec: the `internal/validator` error map (the package is
not among the shown sources).  `errors` collects one message per failed key. -/
structure Validator where
  errors : List (String × String) := []
deriving Repr

/-- Modelled from the spec: `Validator.Check(ok, key, message)` records the
error message under `key` when `ok` is false and the key is not present yet. -/
def Validator.check (v : Validator) (ok : Bool) (key msg : String) : Validator :=
  if ok then v
  else if v.errors.any (fun p => p.1 == key) then v
  else { errors := v.errors ++ [(key, msg)] }

/-- Modelled from the spec: `Validator.Valid()` holds when no check failed. -/
def Validator.valid (v : Validator) : Bool := v.errors.isEmpty

/-- The eleven checks of `ValidateAnime` (movies.go:23-35), in source order.
`nowYear` stands for `time.Now().Year()`; `len(anime.Title)` is the byte
length of the Go string, hence `utf8ByteSize`. -/
def validateAnime (nowYear : Int) (a : Anime) (v : Validator) : Validator :=
  (((((((((( v.check (a.Title != "") "title" "must be provided"
    ).check (a.Title.utf8ByteSize ≤ 500) "title" "must not be more than 500 bytes long"
    ).check (a.Year != 0) "year" "must be provided"
    ).check (a.Year ≥ 1888) "year" "must be greater than 1888"
    ).check (a.Year ≤ nowYear) "year" "must not be in the future"
    ).check (a.RuntimeMin != 0) "runtime" "must be provided"
    ).check (a.RuntimeMin > 0) "runtime" "must be a positive integer"
    ).check (a.Genres.isSome) "genres" "must be provided"
    ).check (goLen a.Genres ≥ 1) "genres" "must contain at least 1 genre"
    ).check (goLen a.Genres ≤ 5) "genres" "must not contain more than 5 genres"
    ).check (uniqueStrings (a.Genres.getD [])) "genres" "must not contain duplicate values"

/-- The validation predicate as the spec and claims phrase it: title non-empty
and at most 500 bytes, year between 1888 and the current year, runtime
positive, 1 to 5 unique genres. -/
def claimValid (nowYear : Int) (a : Anime) : Prop :=
  a.Title ≠ "" ∧ a.Title.utf8ByteSize ≤ 500 ∧
  1888 ≤ a.Year ∧ a.Year ≤ nowYear ∧
  0 < a.RuntimeMin ∧
  1 ≤ goLen a.Genres ∧ goLen a.Genres ≤ 5 ∧
  uniqueStrings (a.Genres.getD []) = true

instance (nowYear : Int) (a : Anime) : Decidable (claimValid nowYear a) := by
  unfold claimValid; infer_instance

/-- The database table `animes`, modelled as a list of rows. -/
abbrev Store := List Anime

/-- All `id` values in a store are distinct (the `animes.id` column is a
`bigserial` primary key). -/
def idsNodup (db : Store) : Prop := (db.map Anime.ID).Nodup

/-- `AnimeModel.Get` (movies.go:55-98): short-circuit `ErrRecordNotFound` for
`id < 1`; otherwise `SELECT ... FROM animes WHERE id = $1` via `QueryRow`,
which yields the (unique) matching row or `sql.ErrNoRows`, translated to
`ErrRecordNotFound`. -/
def modelGet (db : Store) (id : Int) : Except DataErr Anime :=
  if id < 1 then .error .recordNotFound
  else
    match db.find? (fun a => a.ID == id) with
    | none => .error .recordNotFound
    | some a => .ok a

/-- `AnimeModel.Delete` (movies.go:136-167): `ErrRecordNotFound` for `id < 1`;
otherwise `DELETE FROM animes WHERE id = $1`, and `ErrRecordNotFound` when
`RowsAffected()` is zero.  On success the resulting table is returned. -/
def modelDelete (db : Store) (id : Int) : Except DataErr Store :=
  if id < 1 then .error .recordNotFound
  else
    let remaining := db.filter (fun a => !(a.ID == id))
    let rowsAffected := db.length - remaining.length
    if rowsAffected == 0 then .error .recordNotFound
    else .ok remaining

/-- Result metadata (struct `Metadata` of the data package; the struct itself
is in a source file not shown). -/
structure Metadata where
  currentPage : Int := 0
  pageSize : Int := 0
  firstPage : Int := 0
  lastPage : Int := 0
  totalRecords : Int := 0
deriving DecidableEq, Repr

/-- Modelled from the spec: `calculateMetadata` (called at movies.go:223; its
definition is in a source file not shown).  Spec §3/§4.1: when
`TotalRecords == 0` every field is zero-valued and no division is performed;
otherwise `FirstPage = 1` and `LastPage = ceil(TotalRecords / PageSize)`,
computed here by integer ceiling division. -/
def calculateMetadata (totalRecords page pageSize : Int) : Metadata :=
  if totalRecords == 0 then {}
  else
    { currentPage := page
      pageSize := pageSize
      firstPage := 1
      lastPage := (totalRecords + pageSize - 1) / pageSize
      totalRecords := totalRecords }

/-- Modelled from the spec: the `Filters` struct (its source file is not
shown; its fields are set in `listAnimesHandler`, animes.go:199-204). -/
structure Filters where
  Page : Int
  PageSize : Int
  SortParam : String
  SortSafelist : List String

/-- Leading-hyphen test on the raw sort value (the `-` prefix marks a
descending sort). -/
def hasHyphenPrefix (s : String) : Bool :=
  match s.data with
  | c :: _ => c == Char.ofNat 45
  | [] => false

/-- Go `strings.TrimPrefix(s, "-")`. -/
def trimHyphenPrefix (s : String) : String :=
  match s.data with
  | c :: rest => if c == Char.ofNat 45 then String.mk rest else s
  | [] => s

/-- Modelled from the spec: `Filters.sortColumn()` strips the leading `-` and
verifies membership in `SortSafelist`; a value outside the safelist fails
(spec §4.1), modelled as `none`. -/
def Filters.sortColumn (f : Filters) : Option String :=
  let c := trimHyphenPrefix f.SortParam
  if f.SortSafelist.contains c then some c else none

/-- Modelled from the spec: `Filters.sortDirection()` is `DESC` when the raw
sort value starts with `-`, else `ASC`. -/
def Filters.sortDirection (f : Filters) : String :=
  if hasHyphenPrefix f.SortParam then "DESC" else "ASC"

/-- Modelled from the spec: `Filters.limit() = PageSize`. -/
def Filters.limit (f : Filters) : Int := f.PageSize

/-- Modelled from the spec: `Filters.offset() = (Page-1) * PageSize`. -/
def Filters.offset (f : Filters) : Int := (f.Page - 1) * f.PageSize

/-- The WHERE clause shared by the `GetAll` query (movies.go:174-175) and the
query text found in `Update` (movies.go:105-106):
`(to_tsvector('simple', title) @@ plainto_tsquery('simple', $1) OR $1 = '')
AND (genres @> $2 OR $2 = '{}')`, with the full-text operator abstracted as
`ft` and `@>` read as array containment. -/
def matchRow (ft : String → String → Bool) (titleQ : String) (genresQ : List String)
    (a : Anime) : Bool :=
  (ft a.Title titleQ || titleQ == "") &&
  (genresQ.all (fun g => (a.Genres.getD []).contains g) || genresQ == [])

/-- Comparison on the single ORDER BY sort column: `id`, `title`, `year` or
`runtime` (the safelisted columns interpolated at movies.go:176-177). -/
def fieldLe (col : String) (a b : Anime) : Bool :=
  if col == "title" then decide (a.Title ≤ b.Title)
  else if col == "year" then decide (a.Year ≤ b.Year)
  else if col == "runtime" then decide (a.RuntimeMin ≤ b.RuntimeMin)
  else decide (a.ID ≤ b.ID)

/-- Lexicographic row order: strictly below on the primary key, or tied on the
primary key and ordered by `ID` ascending (`ORDER BY %s %s, id ASC`). -/
def lexLe (le1 : Anime → Anime → Bool) (a b : Anime) : Bool :=
  (le1 a b && !(le1 b a)) || (le1 a b && le1 b a && decide (a.ID ≤ b.ID))

/-- The primary-key comparison with direction applied: `DESC` reverses the
column comparison. -/
def primLe (col dir : String) (a b : Anime) : Bool :=
  if dir == "DESC" then fieldLe col b a else fieldLe col a b

/-- The full row order realised by `ORDER BY col dir, id ASC`. -/
def rowLe (col dir : String) : Anime → Anime → Bool := lexLe (primLe col dir)

/-- `AnimeModel.GetAll` (movies.go:169-227): filter by the WHERE clause, order
by the resolved sort column and direction with `id ASC` tiebreak, then
`LIMIT limit() OFFSET offset()`.  `count(*) OVER()` is the number of rows
after filtering and before LIMIT/OFFSET; it is scanned from each returned
row, so the Go accumulator `totalRecords` stays `0` when the page is empty. -/
def getAll (ft : String → String → Bool) (db : Store) (title : String)
    (genres : List String) (f : Filters) : Except DataErr (List Anime × Metadata) :=
  match f.sortColumn with
  | none => .error .backend
  | some col =>
    let matched := db.filter (matchRow ft title genres)
    let sorted := matched.mergeSort (rowLe col f.sortDirection)
    let page := (sorted.drop f.offset.toNat).take f.limit.toNat
    let totalRecords : Int := if page.isEmpty then 0 else matched.length
    .ok (page, calculateMetadata totalRecords f.Page f.PageSize)

/-- A bound query parameter as sent to PostgreSQL. -/
inductive PgVal where
  | int (i : Int)
  | str (s : String)
  | strList (l : Option (List String))
deriving Repr

/-- The query text in `AnimeModel.Update` (movies.go:102-107) contains exactly
two placeholders, `$1` and `$2`. -/
def updateQueryPlaceholders : Nat := 2

/-- The argument list built in `AnimeModel.Update` (movies.go:109-116):
title, year, runtime, genres, id and the expected version — six values. -/
def updateArgs (a : Anime) : List PgVal :=
  [.str a.Title, .int a.Year, .int a.RuntimeMin, .strList a.Genres,
   .int a.ID, .int a.Version]

/-- `AnimeModel.Update` (movies.go:100-134) as written.  The statement it
executes is a SELECT of seven columns filtered by the title/genre WHERE
clause and ordered by id — not a conditional UPDATE.  pgx rejects the bind of
six arguments against two placeholders, so `QueryRow(...).Scan` returns a
generic error, taken by the `default:` branch; the record and the table are
left untouched.  The two later stages (empty result → `ErrEditConflict`;
seven result columns against one scan destination → mismatch) are kept for
completeness but are unreachable behind the bind check.  The triple returned
is (error result, table after the call, record after the call). -/
def modelUpdate (ft : String → String → Bool) (db : Store) (a : Anime) :
    Except DataErr Unit × Store × Anime :=
  if (updateArgs a).length ≠ updateQueryPlaceholders then (.error .bindMismatch, db, a)
  else
    let rows := (db.filter (matchRow ft a.Title (a.Genres.getD []))).mergeSort (rowLe "id" "ASC")
    match rows with
    | [] => (.error .editConflict, db, a)
    | _ :: _ => (.error .scanMismatch, db, a)

/-- Modelled from the spec: the conditional write `Update` is required to
perform (spec §4.2 and §9): update the row whose `id` and `version` both
match, set `version` to the old version plus one, return the new version;
zero matching rows yield `EditConflict`. -/
def specUpdate (db : Store) (a : Anime) : Except DataErr Unit × Store × Anime :=
  match db.find? (fun r => r.ID == a.ID && r.Version == a.Version) with
  | none => (.error .editConflict, db, a)
  | some r =>
    let updated : Anime :=
      { r with Title := a.Title, Year := a.Year, RuntimeMin := a.RuntimeMin,
               Genres := a.Genres, Version := r.Version + 1 }
    (.ok (), db.map (fun x => if x.ID == a.ID && x.Version == a.Version then updated else x),
     { a with Version := r.Version + 1 })

/-- Digit characters of `strconv.FormatInt(_, 32)`: `0`-`9` then `a`-`v`. -/
def base32DigitChar (d : Nat) : Char :=
  if d < 10 then Char.ofNat (48 + d) else Char.ofNat (87 + d)

/-- Fuelled digit loop of base-32 formatting (fuel exceeds the digit count,
so the zero-fuel branch is never taken for the initial call). -/
def natToBase32Core : Nat → Nat → List Char → List Char
  | 0, _, acc => acc
  | fuel + 1, n, acc =>
    if n == 0 then acc
    else natToBase32Core fuel (n / 32) (base32DigitChar (n % 32) :: acc)

/-- Base-32 representation of a natural number, least digit last. -/
def natToBase32 (n : Nat) : String :=
  if n == 0 then "0" else String.mk (natToBase32Core (n + 1) n [])

/-- go `strconv.FormatInt(i, 32)` (used at animes.go:104). -/
def formatIntBase32 (i : Int) : String :=
  if i < 0 then "-" ++ natToBase32 (-i).toNat else natToBase32 i.toNat

/-- Responses a handler can produce (each stands for the corresponding helper
of the `cmd/api` package: 404, 400, 422, 409, 500, 200, 201). -/
inductive HResp where
  | notFound
  | badRequest
  | failedValidation
  | editConflict
  | serverError
  | okResp (a : Anime)
  | createdResp (a : Anime)
deriving DecidableEq, Repr

/-- The PATCH body of `updateAnimeHandler` (animes.go:111-116): every field is
a pointer (or a nil-able slice for genres), so an absent or null JSON field
is `none`. -/
structure UpdateInput where
  title : Option String := none
  year : Option Int := none
  runtimeMin : Option Int := none
  genres : Option (List String) := none
deriving Repr

/-- Observable outcome of a run of `updateAnimeHandler`: the response written,
whether `app.models.Animes.Update` was invoked, and the record passed to it. -/
structure UpdateHandlerOut where
  resp : HResp
  updateCalled : Bool
  submitted : Option Anime
deriving DecidableEq, Repr

/-- The field-merge block of `updateAnimeHandler` (animes.go:123-135): each of
the four pointer/slice fields overwrites the fetched record only when it is
non-nil in the request body. -/
def mergeInput (anime : Anime) (input : UpdateInput) : Anime :=
  { anime with
    Title := input.title.getD anime.Title
    Year := input.year.getD anime.Year
    RuntimeMin := input.runtimeMin.getD anime.RuntimeMin
    Genres := match input.genres with | some g => some g | none => anime.Genres }

/-- Stages of `updateAnimeHandler` after the `X-Expected-Version` check
(animes.go:110-158): read the JSON body, overwrite exactly the fields present
in it, validate, call `Update`, map `ErrEditConflict` to the edit-conflict
response and other errors to 500; on success, write the record back. -/
def updateAnimeBodyStage (nowYear : Int) (ft : String → String → Bool) (db : Store)
    (anime : Anime) (body : Except Unit UpdateInput) : UpdateHandlerOut :=
  match body with
  | .error _ => ⟨.badRequest, false, none⟩
  | .ok input =>
    let merged : Anime := mergeInput anime input
    if !(validateAnime nowYear merged {}).valid then ⟨.failedValidation, false, none⟩
    else
      match modelUpdate ft db merged with
      | (.error .editConflict, _, _) => ⟨.editConflict, true, some merged⟩
      | (.error _, _, _) => ⟨.serverError, true, some merged⟩
      | (.ok _, _, recordAfter) => ⟨.okResp recordAfter, true, some merged⟩

/-- `updateAnimeHandler` (animes.go:83-159): resolve the ID parameter, fetch
the record, run the `X-Expected-Version` header check of animes.go:103-108
(`strconv.FormatInt(int64(anime.Version), 32) != header` → edit conflict),
then hand over to the body stage.  `idParam` models `readIDParam`,
`body` models `readJSON`. -/
def updateAnimeHandler (nowYear : Int) (ft : String → String → Bool) (db : Store)
    (idParam : Except Unit Int) (expectedVersion : String)
    (body : Except Unit UpdateInput) : UpdateHandlerOut :=
  match idParam with
  | .error _ => ⟨.notFound, false, none⟩
  | .ok id =>
    match modelGet db id with
    | .error .recordNotFound => ⟨.notFound, false, none⟩
    | .error _ => ⟨.serverError, false, none⟩
    | .ok anime =>
      if expectedVersion != "" then
        if formatIntBase32 anime.Version != expectedVersion then
          ⟨.editConflict, false, none⟩
        else updateAnimeBodyStage nowYear ft db anime body
      else updateAnimeBodyStage nowYear ft db anime body

/-- The POST body of `createAnimeHandler` (animes.go:13-18): plain fields, a
missing field decodes to its zero value (nil for the genres slice). -/
structure CreateInput where
  title : String := ""
  year : Int := 0
  runtimeMin : Int := 0
  genres : Option (List String) := none
deriving Repr

/-- Observable outcome of a run of `createAnimeHandler`: the response,
whether `Insert` was invoked, and the record passed to it. -/
structure CreateHandlerOut where
  resp : HResp
  insertCalled : Bool
  submitted : Option Anime
deriving DecidableEq, Repr

/-- The record built at animes.go:25-30: only the four client-supplied fields
are set. -/
def createRecord (input : CreateInput) : Anime :=
  { ID := 0, CreatedAt := 0, Title := input.title, Year := input.year,
    RuntimeMin := input.runtimeMin, Genres := input.genres, Version := 0 }

/-- `createAnimeHandler` (animes.go:12-56): decode, build the record with only
the four client fields set, validate, and only then `Insert`.  The backend of
`Insert` is abstracted: `insertFails` selects the 500 branch, and on success
the `RETURNING id, created_at, version` values `newID`, `newCreatedAt`,
`newVersion` are scanned back into the record. -/
def createAnimeHandler (nowYear : Int) (body : Except Unit CreateInput)
    (insertFails : Bool) (newID newCreatedAt newVersion : Int) : CreateHandlerOut :=
  match body with
  | .error _ => ⟨.badRequest, false, none⟩
  | .ok input =>
    let anime : Anime := createRecord input
    if !(validateAnime nowYear anime {}).valid then ⟨.failedValidation, false, none⟩
    else if insertFails then ⟨.serverError, true, some anime⟩
    else
      let returned := { anime with ID := newID, CreatedAt := newCreatedAt, Version := newVersion }
      ⟨.createdResp returned, true, some anime⟩

/-- A stored row used by the concrete witnesses (the spec §8 scenario record
after insertion). -/
def sampleRow1 : Anime :=
  { ID := 1, CreatedAt := 100, Title := "Naruto", Year := 2002,
    RuntimeMin := 23, Genres := some ["action", "adventure"], Version := 1 }

/-- A second stored row whose version, 10, is written `a` in base 32. -/
def sampleRow2 : Anime :=
  { ID := 2, CreatedAt := 101, Title := "Bleach", Year := 2004,
    RuntimeMin := 24, Genres := some ["action"], Version := 10 }

/-- The sort safelist registered in `listAnimesHandler` (animes.go:204). -/
def sampleSafelist : List String :=
  ["id", "title", "year", "runtime", "-id", "-title", "-year", "-runtime"]


theorem Validator.valid_check (v : Validator) (ok : Bool) (k m : String) :
    (v.check ok k m).valid = (v.valid && ok) := by
  cases ok with
  | true => simp [Validator.check]
  | false =>
    simp only [Validator.check, Bool.and_false, if_false, Bool.false_eq_true]
    split
    · rename_i h
      rcases v with ⟨errs⟩
      cases errs with
      | nil => simp at h
      | cons x xs => simp [Validator.valid]
    · simp [Validator.valid]

theorem valid_validateAnime_iff (nowYear : Int) (a : Anime) :
    (validateAnime nowYear a {}).valid = true ↔ claimValid nowYear a := by
  unfold validateAnime claimValid
  simp only [Validator.valid_check]
  have h0 : Validator.valid {} = true := rfl
  rw [h0]
  simp only [Bool.true_and, Bool.and_eq_true, bne_iff_ne, ne_eq, decide_eq_true_eq]
  constructor
  · rintro ⟨⟨⟨⟨⟨⟨⟨⟨⟨⟨h1, h2⟩, h3⟩, h4⟩, h5⟩, h6⟩, h7⟩, h8⟩, h9⟩, h10⟩, h11⟩
    exact ⟨h1, h2, h4, h5, h7, h9, h10, h11⟩
  · rintro ⟨h1, h2, h4, h5, h7, h9, h10, h11⟩
    refine ⟨⟨⟨⟨⟨⟨⟨⟨⟨⟨h1, h2⟩, by omega⟩, h4⟩, h5⟩, by omega⟩, h7⟩, ?_⟩, h9⟩, h10⟩, h11⟩
    cases hg : a.Genres with
    | none => rw [hg] at h9; simp [goLen] at h9
    | some l => simp

theorem find_by_id (db : Store) : idsNodup db → ∀ a : Anime, a ∈ db → ∀ id : Int,
    a.ID = id → db.find? (fun x => x.ID == id) = some a := by
  induction db with
  | nil => intro _ a ha; cases ha
  | cons x xs ih =>
    intro hnd a ha id hid
    unfold idsNodup at hnd
    rw [List.map_cons, List.nodup_cons] at hnd
    rcases List.mem_cons.mp ha with rfl | hmem
    · simp [List.find?_cons, hid]
    · have hx : (x.ID == id) = false := by
        rw [beq_eq_false_iff_ne]
        intro hxid
        apply hnd.1
        rw [hxid, ← hid]
        exact List.mem_map_of_mem Anime.ID hmem
      simp only [List.find?_cons, hx]
      exact ih hnd.2 a hmem id hid

/-- C5: `AnimeModel.Get(id)` fails with `ErrRecordNotFound` when `id < 1`,
with an answer independent of the store contents (the backend is not
consulted), or when no row carries that id; otherwise it returns the full
stored record. -/
theorem claim_C5_get (db : Store) (id : Int) (hnd : idsNodup db) :
    (id < 1 → ∀ db2 : Store, modelGet db2 id = .error .recordNotFound) ∧
    ((∀ a ∈ db, a.ID ≠ id) → modelGet db id = .error .recordNotFound) ∧
    (∀ a : Anime, 1 ≤ id → a ∈ db → a.ID = id → modelGet db id = .ok a) := by
  refine ⟨?_, ?_, ?_⟩
  · intro h db2; simp [modelGet, h]
  · intro h
    unfold modelGet
    split
    · rfl
    · have hnone : db.find? (fun x => x.ID == id) = none := by
        rw [List.find?_eq_none]
        intro x hx
        simpa using h x hx
      rw [hnone]
  · intro a h1 ha hid
    unfold modelGet
    rw [if_neg (by omega), find_by_id db hnd a ha id hid]

/-- Closed instance of the C5 contract at concrete stores. -/
theorem claim_C5_get_witness :
    modelGet [sampleRow1] (-3) = .error .recordNotFound ∧
    modelGet [sampleRow1] 5 = .error .recordNotFound ∧
    modelGet [sampleRow1, sampleRow2] 2 = .ok sampleRow2 :=
  ⟨(claim_C5_get [] (-3) (by unfold idsNodup; decide)).1 (by decide) [sampleRow1],
   (claim_C5_get [sampleRow1] 5 (by unfold idsNodup; decide)).2.1 (by decide),
   (claim_C5_get [sampleRow1, sampleRow2] 2 (by unfold idsNodup; decide)).2.2
     sampleRow2 (by decide) (by decide) (by decide)⟩

/-- C6: `AnimeModel.Delete(id)` fails with `ErrRecordNotFound` when `id < 1`
or when the delete touched zero rows; otherwise it removes exactly the row
with that id and succeeds. -/
theorem claim_C6_delete (db : Store) (id : Int) :
    (id < 1 → modelDelete db id = .error .recordNotFound) ∧
    ((∀ a ∈ db, a.ID ≠ id) → modelDelete db id = .error .recordNotFound) ∧
    (∀ a : Anime, 1 ≤ id → a ∈ db → a.ID = id →
      modelDelete db id = .ok (db.filter (fun x => !(x.ID == id))) ∧
      ∀ x : Anime, x ∈ db.filter (fun y => !(y.ID == id)) ↔ (x ∈ db ∧ x.ID ≠ id)) := by
  refine ⟨?_, ?_, ?_⟩
  · intro h; simp [modelDelete, h]
  · intro h
    unfold modelDelete
    split
    · rfl
    · have hfil : db.filter (fun a => !(a.ID == id)) = db :=
        List.filter_eq_self.mpr (fun a ha => by simpa using h a ha)
      simp [hfil]
  · intro a h1 ha hid
    have hlt : (db.filter (fun x => !(x.ID == id))).length < db.length := by
      rw [List.length_filter_lt_length_iff_exists]
      exact ⟨a, ha, by simp [hid]⟩
    constructor
    · unfold modelDelete
      rw [if_neg (by omega)]
      have hle : (db.filter (fun x => !(x.ID == id))).length ≤ db.length :=
        List.length_filter_le _ _
      rw [if_neg (by simp; omega)]
    · intro x
      rw [List.mem_filter]
      simp
/-- Closed instance of the C6 contract at concrete stores. -/
theorem claim_C6_delete_witness :
    modelDelete [sampleRow1] 0 = .error .recordNotFound ∧
    modelDelete [sampleRow1] 7 = .error .recordNotFound ∧
    modelDelete [sampleRow1, sampleRow2] 1 = .ok [sampleRow2] := by
  refine ⟨(claim_C6_delete [sampleRow1] 0).1 (by decide),
    (claim_C6_delete [sampleRow1] 7).2.1 (by decide), ?_⟩
  have h := ((claim_C6_delete [sampleRow1, sampleRow2] 1).2.2 sampleRow1
    (by decide) (by decide) (by decide)).1
  rw [h]
  rfl

/-- C7: a successful `Delete(id)` followed by `Get(id)` on the resulting store
yields `ErrRecordNotFound`. -/
theorem claim_C7_delete_then_get (db db2 : Store) (id : Int)
    (h : modelDelete db id = .ok db2) :
    modelGet db2 id = .error .recordNotFound := by
  unfold modelDelete at h
  split at h
  · cases h
  · rename_i hge
    simp only [] at h
    split at h
    · cases h
    · cases h
      unfold modelGet
      rw [if_neg hge]
      have hnone : (db.filter fun a => !(a.ID == id)).find? (fun a => a.ID == id) = none := by
        rw [List.find?_eq_none]
        intro x hx
        have hx2 := (List.mem_filter.mp hx).2
        simpa using hx2
      rw [hnone]

/-- Closed instance of C7: deleting id 1 then fetching it. -/
theorem claim_C7_delete_then_get_witness :
    modelGet [sampleRow2] 1 = .error .recordNotFound :=
  claim_C7_delete_then_get [sampleRow1, sampleRow2] [sampleRow2] 1 (by rfl)

/-- C4: for valid inputs, the metadata calculation is pure, `lastPage` is the
ceiling of `totalRecords / pageSize`, `firstPage` is 1, and a zero
`totalRecords` yields the all-zero metadata value with no division taken. -/
theorem claim_C4_calculateMetadata (t p ps : Int) (hp : 1 ≤ p) (hps1 : 1 ≤ ps)
    (hps2 : ps ≤ 100) (ht : 0 ≤ t) :
    (calculateMetadata t p ps).lastPage = ⌈(t : ℚ) / (ps : ℚ)⌉ ∧
    (t ≠ 0 → (calculateMetadata t p ps).firstPage = 1 ∧
      (calculateMetadata t p ps).currentPage = p ∧
      (calculateMetadata t p ps).pageSize = ps ∧
      (calculateMetadata t p ps).totalRecords = t) ∧
    (t = 0 → calculateMetadata t p ps =
      { currentPage := 0, pageSize := 0, firstPage := 0, lastPage := 0, totalRecords := 0 }) := by
  refine ⟨?_, ?_, fun h0 => by subst h0; rfl⟩
  · by_cases h0 : t = 0
    · subst h0; simp [calculateMetadata]
    · have hfalse : (t == 0) = false := by simp [h0]
      simp only [calculateMetadata, hfalse, Bool.false_eq_true, if_false]
      symm
      rw [Int.ceil_eq_iff]
      have hps0 : (0 : ℚ) < (ps : ℚ) := by exact_mod_cast hps1
      have hmod := Int.ediv_add_emod (t + ps - 1) ps
      have hm0 : 0 ≤ (t + ps - 1) % ps := Int.emod_nonneg _ (by omega)
      have hmlt : (t + ps - 1) % ps < ps := Int.emod_lt_of_pos _ (by omega)
      set q : Int := (t + ps - 1) / ps with hq
      have hA : (q - 1) * ps < t := by
        have h1 : (q - 1) * ps = ps * q - ps := by ring
        rw [h1]
        linarith [hmod, hm0]
      have hB : t ≤ q * ps := by
        have h2 : q * ps = ps * q := by ring
        rw [h2]
        linarith [hmod, hmlt]
      constructor
      · rw [show ((q : ℚ) - 1) = ((q - 1 : Int) : ℚ) by push_cast; ring, lt_div_iff₀ hps0]
        exact_mod_cast hA
      · rw [div_le_iff₀ hps0]
        exact_mod_cast hB
  · intro h0
    have hfalse : (t == 0) = false := by simp [h0]
    simp [calculateMetadata, hfalse]

/-- Closed instance of C4 at `totalRecords = 101`, `page = 2`, `pageSize = 20`. -/
theorem claim_C4_calculateMetadata_witness :
    (calculateMetadata 101 2 20).lastPage = ⌈(101 : ℚ) / (20 : ℚ)⌉ ∧
    ((101 : Int) ≠ 0 → (calculateMetadata 101 2 20).firstPage = 1 ∧
      (calculateMetadata 101 2 20).currentPage = 2 ∧
      (calculateMetadata 101 2 20).pageSize = 20 ∧
      (calculateMetadata 101 2 20).totalRecords = 101) ∧
    ((101 : Int) = 0 → calculateMetadata 101 2 20 =
      { currentPage := 0, pageSize := 0, firstPage := 0, lastPage := 0, totalRecords := 0 }) :=
  claim_C4_calculateMetadata 101 2 20 (by decide) (by decide) (by decide) (by decide)

theorem modelUpdate_run (ft : String → String → Bool) (db : Store) (a : Anime) :
    modelUpdate ft db a = (.error .bindMismatch, db, a) := by
  unfold modelUpdate updateArgs updateQueryPlaceholders
  simp

/-- C1: the claim describes a conditional write keyed on `(id, version)` that
increments the version and reports `ErrEditConflict` on zero matching rows.
The code of `AnimeModel.Update` cannot perform it: on every input it binds
six arguments against a statement with two placeholders, so every call
returns the bind error through the `default:` branch — never success, never
`ErrEditConflict` from a version comparison — and neither the table nor the
record's version changes.  (The intended conditional write, `specUpdate`,
does satisfy the claim, as the concrete run in the last conjunct shows: the
matching row's version moves from 1 to exactly 2.) -/
theorem claim_C1_update_is_broken :
    (∀ (ft : String → String → Bool) (db : Store) (a : Anime),
      modelUpdate ft db a = (.error .bindMismatch, db, a)) ∧
    DataErr.bindMismatch ≠ DataErr.editConflict ∧
    (modelUpdate (fun _ _ => true) [sampleRow1] sampleRow1 =
      (.error .bindMismatch, [sampleRow1], sampleRow1)) ∧
    (specUpdate [sampleRow1] sampleRow1 =
      (.ok (), [{ sampleRow1 with Version := 2 }], { sampleRow1 with Version := 2 })) := by
  refine ⟨modelUpdate_run, by decide, modelUpdate_run _ _ _, ?_⟩
  rfl

/-- C9: whatever `AnimeModel.Update` returns, every field of the supplied
record other than `Version` is exactly what the caller set (here even
`Version` is untouched, because the call fails before `Scan` writes it). -/
theorem claim_C9_update_frame (ft : String → String → Bool) (db : Store) (a : Anime) :
    (modelUpdate ft db a).2.2.ID = a.ID ∧
    (modelUpdate ft db a).2.2.CreatedAt = a.CreatedAt ∧
    (modelUpdate ft db a).2.2.Title = a.Title ∧
    (modelUpdate ft db a).2.2.Year = a.Year ∧
    (modelUpdate ft db a).2.2.RuntimeMin = a.RuntimeMin ∧
    (modelUpdate ft db a).2.2.Genres = a.Genres := by
  rw [modelUpdate_run]
  exact ⟨rfl, rfl, rfl, rfl, rfl, rfl⟩

/-- C2 is false as stated: with stored version 10, a PATCH whose
`X-Expected-Version` header is `"10"` — the decimal rendering of the current
version, so a header that equals the record's current version — receives the
edit-conflict response and `Update` is never invoked, because animes.go:104
compares the header against `strconv.FormatInt(int64(version), 32) = "a"`. -/
theorem claim_C2_counterexample :
    modelGet [sampleRow2] 2 = .ok sampleRow2 ∧
    toString sampleRow2.Version = "10" ∧
    formatIntBase32 sampleRow2.Version = "a" ∧
    updateAnimeHandler 2026 (fun _ _ => true) [sampleRow2] (.ok 2) "10"
      (.ok { year := some 2005 }) =
      { resp := .editConflict, updateCalled := false, submitted := none } :=
  ⟨rfl, rfl, rfl, rfl⟩

/-- C2 (amended): the handler compares a non-empty `X-Expected-Version`
header against the base-32 rendering, `strconv.FormatInt(version, 32)`, of
the fetched record's current version; a differing header yields the
edit-conflict response with the store's `Update` never invoked, and a header
equal to that rendering lets the request proceed exactly as if no header had
been sent. -/
theorem claim_C2_header_check (nowYear : Int) (ft : String → String → Bool)
    (db : Store) (id : Int) (anime : Anime) (hdr : String)
    (body : Except Unit UpdateInput)
    (hget : modelGet db id = .ok anime) (hne : hdr ≠ "") :
    (hdr ≠ formatIntBase32 anime.Version →
      updateAnimeHandler nowYear ft db (.ok id) hdr body =
        { resp := .editConflict, updateCalled := false, submitted := none }) ∧
    (hdr = formatIntBase32 anime.Version →
      updateAnimeHandler nowYear ft db (.ok id) hdr body =
        updateAnimeHandler nowYear ft db (.ok id) "" body) := by
  have h1 : (hdr != "") = true := by simpa using hne
  constructor
  · intro hneq
    have h2 : (formatIntBase32 anime.Version != hdr) = true := by
      simpa using (Ne.symm hneq)
    simp [updateAnimeHandler, hget, h1, h2]
  · intro heq
    have h2 : (formatIntBase32 anime.Version != hdr) = false := by
      simp [heq]
    simp [updateAnimeHandler, hget, h1, h2]

/-- Closed instance of the amended C2 at a concrete store and headers. -/
theorem claim_C2_header_check_witness :
    ("zz" ≠ formatIntBase32 sampleRow2.Version →
      updateAnimeHandler 2026 (fun _ _ => true) [sampleRow2] (.ok 2) "zz" (.ok {}) =
        { resp := .editConflict, updateCalled := false, submitted := none }) ∧
    ("zz" = formatIntBase32 sampleRow2.Version →
      updateAnimeHandler 2026 (fun _ _ => true) [sampleRow2] (.ok 2) "zz" (.ok {}) =
        updateAnimeHandler 2026 (fun _ _ => true) [sampleRow2] (.ok 2) "" (.ok {})) :=
  claim_C2_header_check 2026 (fun _ _ => true) [sampleRow2] 2 sampleRow2 "zz"
    (.ok {}) (by rfl) (by decide)

theorem bodyStage_called (nowYear : Int) (ft : String → String → Bool)
    (db : Store) (anime : Anime) (body : Except Unit UpdateInput) :
    (updateAnimeBodyStage nowYear ft db anime body).updateCalled = true →
    ∃ m, (updateAnimeBodyStage nowYear ft db anime body).submitted = some m ∧
      claimValid nowYear m := by
  intro hcall
  cases body with
  | error e => simp [updateAnimeBodyStage] at hcall
  | ok input =>
    by_cases hv : (validateAnime nowYear (mergeInput anime input) {}).valid = true
    · refine ⟨mergeInput anime input, ?_, (valid_validateAnime_iff _ _).mp hv⟩
      simp [updateAnimeBodyStage, hv, modelUpdate_run]
    · have hv2 : (validateAnime nowYear (mergeInput anime input) {}).valid = false := by
        revert hv
        cases (validateAnime nowYear (mergeInput anime input) {}).valid <;> simp
      simp [updateAnimeBodyStage, hv2] at hcall

/-- C8: on both the create (POST) and the update (PATCH) path, the store's
`Insert` or `Update` is invoked only on records that passed the full
validation predicate, and a record failing any check draws the
validation-failure response with the store never called. -/
theorem claim_C8_validation_gates_store (nowYear : Int) (ft : String → String → Bool)
    (db : Store) (idParam : Except Unit Int) (hdr : String)
    (ubody : Except Unit UpdateInput) (cbody : Except Unit CreateInput)
    (insertFails : Bool) (nid nca nv : Int) :
    ((createAnimeHandler nowYear cbody insertFails nid nca nv).insertCalled = true →
      ∃ m, (createAnimeHandler nowYear cbody insertFails nid nca nv).submitted = some m ∧
        claimValid nowYear m) ∧
    (∀ input : CreateInput, cbody = .ok input → ¬claimValid nowYear (createRecord input) →
      createAnimeHandler nowYear cbody insertFails nid nca nv =
        { resp := .failedValidation, insertCalled := false, submitted := none }) ∧
    ((updateAnimeHandler nowYear ft db idParam hdr ubody).updateCalled = true →
      ∃ m, (updateAnimeHandler nowYear ft db idParam hdr ubody).submitted = some m ∧
        claimValid nowYear m) ∧
    (∀ (id : Int) (anime : Anime) (input : UpdateInput),
      idParam = .ok id → modelGet db id = .ok anime → hdr = "" → ubody = .ok input →
      ¬claimValid nowYear (mergeInput anime input) →
      updateAnimeHandler nowYear ft db idParam hdr ubody =
        { resp := .failedValidation, updateCalled := false, submitted := none }) := by
  refine ⟨?_, ?_, ?_, ?_⟩
  · intro hcall
    cases cbody with
    | error e => simp [createAnimeHandler] at hcall
    | ok input =>
      by_cases hv : (validateAnime nowYear (createRecord input) {}).valid = true
      · refine ⟨createRecord input, ?_, (valid_validateAnime_iff _ _).mp hv⟩
        cases insertFails <;> simp [createAnimeHandler, hv]
      · have hv2 : (validateAnime nowYear (createRecord input) {}).valid = false := by
          revert hv
          cases (validateAnime nowYear (createRecord input) {}).valid <;> simp
        simp [createAnimeHandler, hv2] at hcall
  · intro input hbody hinvalid
    subst hbody
    have hv2 : (validateAnime nowYear (createRecord input) {}).valid = false := by
      rcases hb : (validateAnime nowYear (createRecord input) {}).valid with _ | _
      · rfl
      · exact absurd ((valid_validateAnime_iff _ _).mp hb) hinvalid
    simp [createAnimeHandler, hv2]
  · intro hcall
    cases idParam with
    | error e => simp [updateAnimeHandler] at hcall
    | ok id =>
      unfold updateAnimeHandler at hcall ⊢
      dsimp only at hcall ⊢
      cases hget : modelGet db id with
      | error e =>
        rw [hget] at hcall
        cases e <;> simp at hcall
      | ok anime =>
        rw [hget] at hcall
        dsimp only at hcall ⊢
        by_cases hh : hdr = ""
        · have hb : (hdr != "") = false := by simp [hh]
          simp only [hb, Bool.false_eq_true, if_false] at hcall ⊢
          exact bodyStage_called nowYear ft db anime ubody hcall
        · have hb : (hdr != "") = true := by simpa using hh
          simp only [hb, if_true] at hcall ⊢
          by_cases hcmp : formatIntBase32 anime.Version = hdr
          · have hc : (formatIntBase32 anime.Version != hdr) = false := by simp [hcmp]
            simp only [hc, Bool.false_eq_true, if_false] at hcall ⊢
            exact bodyStage_called nowYear ft db anime ubody hcall
          · have hc : (formatIntBase32 anime.Version != hdr) = true := by simpa using hcmp
            simp only [hc, if_true] at hcall
            simp at hcall
  · intro id anime input hidp hget hhdr hbody hinvalid
    subst hidp; subst hhdr; subst hbody
    have hv2 : (validateAnime nowYear (mergeInput anime input) {}).valid = false := by
      rcases hb : (validateAnime nowYear (mergeInput anime input) {}).valid with _ | _
      · rfl
      · exact absurd ((valid_validateAnime_iff _ _).mp hb) hinvalid
    simp [updateAnimeHandler, hget, updateAnimeBodyStage, hv2]

/-- Closed instance of C8: an empty title blocks `Insert`; a PATCH that sets
the title to the empty string blocks `Update`. -/
theorem claim_C8_validation_gates_store_witness :
    createAnimeHandler 2026
      (.ok { title := "", year := 2002, runtimeMin := 23, genres := some ["action"] })
      false 7 100 1 =
      { resp := .failedValidation, insertCalled := false, submitted := none } ∧
    updateAnimeHandler 2026 (fun _ _ => true) [sampleRow1] (.ok 1) ""
      (.ok { title := some "" }) =
      { resp := .failedValidation, updateCalled := false, submitted := none } :=
  ⟨(claim_C8_validation_gates_store 2026 (fun _ _ => true) [sampleRow1] (.ok 1) ""
      (.ok { title := some "" })
      (.ok { title := "", year := 2002, runtimeMin := 23, genres := some ["action"] })
      false 7 100 1).2.1 _ rfl (by decide),
   (claim_C8_validation_gates_store 2026 (fun _ _ => true) [sampleRow1] (.ok 1) ""
      (.ok { title := some "" })
      (.ok { title := "", year := 2002, runtimeMin := 23, genres := some ["action"] })
      false 7 100 1).2.2.2 1 sampleRow1 { title := some "" } rfl rfl rfl rfl (by decide)⟩

/-- C10: on a PATCH with no version header, a body field that is absent or
null leaves the corresponding field of the fetched record unchanged in the
record the handler submits to `Update`; a body omitting all four fields
submits the record exactly as stored, and the merge never touches `ID`,
`CreatedAt` or `Version`. -/
theorem claim_C10_partial_update (nowYear : Int) (ft : String → String → Bool)
    (db : Store) (id : Int) (anime : Anime) (input : UpdateInput)
    (hget : modelGet db id = .ok anime) :
    ((updateAnimeHandler nowYear ft db (.ok id) "" (.ok input)).updateCalled = true →
      (updateAnimeHandler nowYear ft db (.ok id) "" (.ok input)).submitted =
        some (mergeInput anime input)) ∧
    (input.title = none → (mergeInput anime input).Title = anime.Title) ∧
    (input.year = none → (mergeInput anime input).Year = anime.Year) ∧
    (input.runtimeMin = none → (mergeInput anime input).RuntimeMin = anime.RuntimeMin) ∧
    (input.genres = none → (mergeInput anime input).Genres = anime.Genres) ∧
    (mergeInput anime input).ID = anime.ID ∧
    (mergeInput anime input).CreatedAt = anime.CreatedAt ∧
    (mergeInput anime input).Version = anime.Version ∧
    (input = { title := none, year := none, runtimeMin := none, genres := none } →
      mergeInput anime input = anime) := by
  refine ⟨?_, ?_, ?_, ?_, ?_, rfl, rfl, rfl, ?_⟩
  · intro hcall
    unfold updateAnimeHandler at hcall ⊢
    dsimp only at hcall ⊢
    rw [hget] at hcall
    dsimp only at hcall ⊢
    rw [hget]
    dsimp only
    by_cases hv : (validateAnime nowYear (mergeInput anime input) {}).valid = true
    · simp [updateAnimeBodyStage, hv, modelUpdate_run]
    · have hv2 : (validateAnime nowYear (mergeInput anime input) {}).valid = false := by
        revert hv
        cases (validateAnime nowYear (mergeInput anime input) {}).valid <;> simp
      simp [updateAnimeBodyStage, hv2] at hcall
  · intro h; simp [mergeInput, h]
  · intro h; simp [mergeInput, h]
  · intro h; simp [mergeInput, h]
  · intro h; simp [mergeInput, h]
  · intro h; subst h; rfl

/-- Closed instance of C10: a PATCH body carrying only `year` keeps the other
three fields of the stored record; the empty body submits the stored record
unchanged. -/
theorem claim_C10_partial_update_witness :
    (((updateAnimeHandler 2026 (fun _ _ => true) [sampleRow1] (.ok 1) ""
        (.ok { year := some 2003 })).updateCalled = true →
      (updateAnimeHandler 2026 (fun _ _ => true) [sampleRow1] (.ok 1) ""
        (.ok { year := some 2003 })).submitted =
        some (mergeInput sampleRow1 { year := some 2003 })) ∧
     ((UpdateInput.title { year := some 2003 } = none) →
       (mergeInput sampleRow1 { year := some 2003 }).Title = sampleRow1.Title) ∧
     ((UpdateInput.year { year := some 2003 } = none) →
       (mergeInput sampleRow1 { year := some 2003 }).Year = sampleRow1.Year) ∧
     ((UpdateInput.runtimeMin { year := some 2003 } = none) →
       (mergeInput sampleRow1 { year := some 2003 }).RuntimeMin = sampleRow1.RuntimeMin) ∧
     ((UpdateInput.genres { year := some 2003 } = none) →
       (mergeInput sampleRow1 { year := some 2003 }).Genres = sampleRow1.Genres) ∧
     (mergeInput sampleRow1 { year := some 2003 }).ID = sampleRow1.ID ∧
     (mergeInput sampleRow1 { year := some 2003 }).CreatedAt = sampleRow1.CreatedAt ∧
     (mergeInput sampleRow1 { year := some 2003 }).Version = sampleRow1.Version ∧
     (({ year := some 2003 } : UpdateInput) =
        { title := none, year := none, runtimeMin := none, genres := none } →
       mergeInput sampleRow1 { year := some 2003 } = sampleRow1)) ∧
    mergeInput sampleRow1 {} = sampleRow1 :=
  ⟨claim_C10_partial_update 2026 (fun _ _ => true) [sampleRow1] 1 sampleRow1
     { year := some 2003 } (by rfl),
   (claim_C10_partial_update 2026 (fun _ _ => true) [sampleRow1] 1 sampleRow1
     {} (by rfl)).2.2.2.2.2.2.2.2 rfl⟩

theorem fieldLe_total (col : String) (a b : Anime) :
    (fieldLe col a b || fieldLe col b a) = true := by
  unfold fieldLe
  split_ifs <;> simp only [Bool.or_eq_true, decide_eq_true_eq] <;> exact le_total _ _

theorem fieldLe_trans (col : String) (a b c : Anime) :
    fieldLe col a b = true → fieldLe col b c = true → fieldLe col a c = true := by
  unfold fieldLe
  split_ifs <;> simp only [decide_eq_true_eq] <;> exact le_trans

theorem primLe_total (col dir : String) (a b : Anime) :
    (primLe col dir a b || primLe col dir b a) = true := by
  unfold primLe
  split_ifs
  · rw [Bool.or_comm]
    exact fieldLe_total col a b
  · exact fieldLe_total col a b

theorem primLe_trans (col dir : String) (a b c : Anime) :
    primLe col dir a b = true → primLe col dir b c = true → primLe col dir a c = true := by
  unfold primLe
  split_ifs
  · intro h1 h2
    exact fieldLe_trans col c b a h2 h1
  · exact fieldLe_trans col a b c

theorem lexLe_total (le1 : Anime → Anime → Bool)
    (h : ∀ x y, (le1 x y || le1 y x) = true) (a b : Anime) :
    (lexLe le1 a b || lexLe le1 b a) = true := by
  have hab := h a b
  unfold lexLe
  cases h1 : le1 a b <;> cases h2 : le1 b a <;> simp_all
  omega

theorem lexLe_trans (le1 : Anime → Anime → Bool)
    (htr : ∀ x y z, le1 x y = true → le1 y z = true → le1 x z = true)
    (a b c : Anime) :
    lexLe le1 a b = true → lexLe le1 b c = true → lexLe le1 a c = true := by
  intro hab hbc
  simp only [lexLe, Bool.or_eq_true, Bool.and_eq_true, Bool.not_eq_true',
    decide_eq_true_eq] at hab hbc ⊢
  have hab1 : le1 a b = true := by rcases hab with ⟨h, _⟩ | ⟨⟨h, _⟩, _⟩ <;> exact h
  have hbc1 : le1 b c = true := by rcases hbc with ⟨h, _⟩ | ⟨⟨h, _⟩, _⟩ <;> exact h
  have hac : le1 a c = true := htr a b c hab1 hbc1
  by_cases hca : le1 c a = true
  · have hcb : le1 c b = true := htr c a b hca hab1
    have hba : le1 b a = true := htr b c a hbc1 hca
    rcases hab with ⟨_, h⟩ | ⟨⟨_, _⟩, hidab⟩
    · rw [hba] at h; cases h
    · rcases hbc with ⟨_, h⟩ | ⟨⟨_, _⟩, hidbc⟩
      · rw [hcb] at h; cases h
      · exact Or.inr ⟨⟨hac, hca⟩, le_trans hidab hidbc⟩
  · exact Or.inl ⟨hac, by revert hca; cases le1 c a <;> simp⟩

theorem rowLe_total (col dir : String) (a b : Anime) :
    (rowLe col dir a b || rowLe col dir b a) = true :=
  lexLe_total (primLe col dir) (primLe_total col dir) a b

theorem rowLe_trans (col dir : String) (a b c : Anime) :
    rowLe col dir a b = true → rowLe col dir b c = true → rowLe col dir a c = true :=
  lexLe_trans (primLe col dir) (primLe_trans col dir) a b c

/-- C3: `GetAll` returns exactly the records matched by the title/genre WHERE
clause — every returned row is a matching row of the table, and when the
first page is large enough it contains every matching row — ordered by the
resolved sort column and direction with `ID` ascending as tiebreak, with at
most `PageSize` rows, and with the pre-pagination total count (delivered by
`count(*) OVER()` inside the same query) equal to the number of matching
rows whenever the page is non-empty. -/
theorem claim_C3_getAll (ft : String → String → Bool) (db : Store) (title : String)
    (genres : List String) (f : Filters) (col : String)
    (hcol : f.sortColumn = some col) (hp : 1 ≤ f.Page) (hps1 : 1 ≤ f.PageSize)
    (hps2 : f.PageSize ≤ 100) :
    ∃ page md, getAll ft db title genres f = .ok (page, md) ∧
      (∀ a ∈ page, a ∈ db ∧ matchRow ft title genres a = true) ∧
      page.Pairwise (fun a b => rowLe col f.sortDirection a b = true) ∧
      page.length ≤ f.PageSize.toNat ∧
      (f.Page = 1 → (db.filter (matchRow ft title genres)).length ≤ f.PageSize.toNat →
        ∀ a ∈ db, matchRow ft title genres a = true → a ∈ page) ∧
      (page ≠ [] →
        md.totalRecords = ((db.filter (matchRow ft title genres)).length : Int)) := by
  have hrun : getAll ft db title genres f =
      .ok ((((db.filter (matchRow ft title genres)).mergeSort
               (rowLe col f.sortDirection)).drop f.offset.toNat).take f.limit.toNat,
           calculateMetadata
             (if ((((db.filter (matchRow ft title genres)).mergeSort
                     (rowLe col f.sortDirection)).drop f.offset.toNat).take
                     f.limit.toNat).isEmpty
              then 0 else ((db.filter (matchRow ft title genres)).length : Int))
             f.Page f.PageSize) := by
    unfold getAll
    rw [hcol]
  set matched := db.filter (matchRow ft title genres) with hm
  set sorted := matched.mergeSort (rowLe col f.sortDirection) with hs
  set page := (sorted.drop f.offset.toNat).take f.limit.toNat with hpg
  refine ⟨page, _, hrun, ?_, ?_, ?_, ?_, ?_⟩
  · intro a ha
    have h1 : a ∈ sorted := List.mem_of_mem_drop (List.mem_of_mem_take ha)
    have h2 : a ∈ matched := by
      rw [hs] at h1
      exact List.mem_mergeSort.mp h1
    rw [hm] at h2
    exact ⟨(List.mem_filter.mp h2).1, (List.mem_filter.mp h2).2⟩
  · have hsorted : sorted.Pairwise (fun a b => rowLe col f.sortDirection a b = true) := by
      rw [hs]
      exact List.sorted_mergeSort
        (fun x y z => rowLe_trans col f.sortDirection x y z)
        (fun x y => rowLe_total col f.sortDirection x y) matched
    have hsub : page.Sublist sorted :=
      (List.take_sublist _ _).trans (List.drop_sublist _ _)
    exact hsorted.sublist hsub
  · rw [hpg]
    have h := List.length_take_le f.limit.toNat (sorted.drop f.offset.toNat)
    simp only [Filters.limit] at h
    exact h
  · intro hp1 hfit a ha hmatch
    have hoff : f.offset = 0 := by simp [Filters.offset, hp1]
    have hlen : sorted.length = matched.length := by
      rw [hs]; exact List.length_mergeSort matched
    have htake : page = sorted := by
      rw [hpg, hoff]
      simp only [Int.toNat_zero, List.drop_zero]
      apply List.take_of_length_le
      rw [hlen]
      simpa [Filters.limit] using hfit
    rw [htake, hs]
    exact List.mem_mergeSort.mpr (List.mem_filter.mpr ⟨ha, hmatch⟩)
  · intro hne
    have hempty : page.isEmpty = false := by
      rw [List.isEmpty_eq_false]
      exact hne
    rw [hempty]
    simp only [Bool.false_eq_true, if_false]
    have hpos : 0 < matched.length := by
      obtain ⟨a, ha⟩ := List.exists_mem_of_ne_nil page hne
      rw [hpg] at ha
      have h1 : a ∈ sorted := List.mem_of_mem_drop (List.mem_of_mem_take ha)
      have h2 : a ∈ matched := by rw [hs] at h1; exact List.mem_mergeSort.mp h1
      exact List.length_pos.mpr (List.ne_nil_of_mem h2)
    have hz : (((matched.length : Int)) == 0) = false := by
      simp only [beq_eq_false_iff_ne, ne_eq]
      omega
    simp [calculateMetadata, hz]

/-- Filter values of a concrete list request: first page of twenty, sorted by
year descending. -/
def sampleFilters : Filters :=
  { Page := 1, PageSize := 20, SortParam := "-year", SortSafelist := sampleSafelist }

/-- Closed instance of C3 at a two-row store, first page, year descending. -/
theorem claim_C3_getAll_witness :
    ∃ page md, getAll (fun _ _ => true) [sampleRow1, sampleRow2] "" [] sampleFilters =
        .ok (page, md) ∧
      (∀ a ∈ page, a ∈ [sampleRow1, sampleRow2] ∧
        matchRow (fun _ _ => true) "" [] a = true) ∧
      page.Pairwise (fun a b => rowLe "year" sampleFilters.sortDirection a b = true) ∧
      page.length ≤ sampleFilters.PageSize.toNat ∧
      (sampleFilters.Page = 1 →
        (([sampleRow1, sampleRow2] : Store).filter
          (matchRow (fun _ _ => true) "" [])).length ≤ sampleFilters.PageSize.toNat →
        ∀ a ∈ ([sampleRow1, sampleRow2] : Store),
          matchRow (fun _ _ => true) "" [] a = true → a ∈ page) ∧
      (page ≠ [] →
        md.totalRecords = ((([sampleRow1, sampleRow2] : Store).filter
          (matchRow (fun _ _ => true) "" [])).length : Int)) :=
  claim_C3_getAll (fun _ _ => true) [sampleRow1, sampleRow2] "" [] sampleFilters "year"
    (by decide) (by decide) (by decide) (by decide)
